import Mathlib

/-!
Shallow embedding of the boxing-match core of this repository:
`src/services/gameLogic.ts` (class `GameLogicService`) and
`src/services/gestureRecognition.ts` (class `GestureRecognitionService`).

Modelling conventions:
* JS numbers holding integer quantities (health, score, comboCount,
  timestamps, round counters) are embedded as `ℤ` / `ℕ`.
* `Math.random()` draws are passed in explicitly as `ℚ` parameters; the
  call sites assume they lie in `[0,1)` exactly as the JS runtime does.
* `Date.now()` is passed in explicitly as an integer `now` parameter.
* Mutation of `this.gameState` becomes explicit state passing: each
  operation takes a `GameState` and returns the new `GameState` together
  with the list of events it `emit`s (in emission order).
* Timer management (`setInterval` / `clearInterval`) only decides *when*
  the tick and AI callbacks run; the callback bodies are embedded as
  the state transformers `tick` and `updateAIAction`.
-/

namespace GameLogic

/-- The `Player` interface of `gameLogic.ts`. -/
structure Player where
  id : String
  name : String
  health : ℤ
  score : ℕ
  action : String
  isBlocking : Bool
  comboCount : ℕ
  lastActionTime : ℤ
deriving Repr, DecidableEq

/-- The `GameState` interface of `gameLogic.ts`; `players` is the
two-element tuple `[player1, player2]`. -/
structure GameState where
  players : Player × Player
  currentRound : ℕ
  totalRounds : ℕ
  roundTime : ℕ
  timeRemaining : ℕ
  isMatchRunning : Bool
  isPaused : Bool
  winner : Option String
deriving Repr, DecidableEq

/-- The payloads emitted over the `GameEvents` listener map.
`matchEnd w r` embeds `emit(MATCH_END, {winner: w, reset: r})`
(`endMatch` emits `reset = false` because its payload has no
`reset` field; `resetMatch` emits `winner = none, reset = true`). -/
inductive GameEvent where
  | matchStart : GameEvent
  | matchEnd : Option String → Bool → GameEvent
  | roundStart : ℕ → GameEvent
  | roundEnd : ℕ → GameEvent
  | hitLanded : String → String → String → ℤ → ℕ → ℕ → GameEvent
  | blockSuccess : String → String → GameEvent
  | playerDamaged : String → ℤ → ℤ → GameEvent
  | scoreUpdate : String → ℕ → GameEvent
deriving Repr, DecidableEq

/-- Read `this.gameState.players[i]` for `i ∈ {0,1}`. -/
def playerAt (s : GameState) (i : ℕ) : Player :=
  if i = 0 then s.players.1 else s.players.2

/-- Write `this.gameState.players[i]` for `i ∈ {0,1}`. -/
def setPlayerAt (s : GameState) (i : ℕ) (p : Player) : GameState :=
  if i = 0 then { s with players := (p, s.players.2) }
  else { s with players := (s.players.1, p) }

/-- `createInitialGameState` (the `lastActionTime` of both players is set to
`Date.now()`, passed in here as `now`). -/
def createInitialGameState (now : ℤ) : GameState :=
  { players :=
      ({ id := "player1", name := "玩家", health := 100, score := 0,
         action := "idle", isBlocking := false, comboCount := 0,
         lastActionTime := now },
       { id := "player2", name := "AI对手", health := 100, score := 0,
         action := "idle", isBlocking := false, comboCount := 0,
         lastActionTime := now }),
    currentRound := 1,
    totalRounds := 3,
    roundTime := 180,
    timeRemaining := 180,
    isMatchRunning := false,
    isPaused := false,
    winner := none }

/-- `resetGameState`: resets health, score and comboCount of both
players, the round counter, the clock and the winner — and nothing
else (in particular `action`, `isBlocking` and `lastActionTime` keep
their current values). -/
def resetGameState (s : GameState) : GameState :=
  { s with
    players :=
      ({ s.players.1 with health := 100, score := 0, comboCount := 0 },
       { s.players.2 with health := 100, score := 0, comboCount := 0 }),
    currentRound := 1,
    timeRemaining := s.roundTime,
    winner := none }

/-- `startMatch`: early return when already running; otherwise
`resetGameState`, sets the running flags and emits `MATCH_START`. -/
def startMatch (s : GameState) : GameState × List GameEvent :=
  if s.isMatchRunning then (s, [])
  else
    ({ resetGameState s with isMatchRunning := true, isPaused := false },
     [GameEvent.matchStart])

/-- `pauseMatch`: early return when not running; otherwise toggles
`isPaused` (timer start/stop has no state-snapshot effect). -/
def pauseMatch (s : GameState) : GameState × List GameEvent :=
  if s.isMatchRunning then
    ({ s with isPaused := !s.isPaused }, [])
  else (s, [])

/-- `resetMatch`: replaces the state with `createInitialGameState()` and
emits `MATCH_END {winner: null, reset: true}`. -/
def resetMatch (now : ℤ) (_s : GameState) : GameState × List GameEvent :=
  (createInitialGameState now, [GameEvent.matchEnd none true])

/-- `dispose` stops the timers and clears the listener map; the
`GameState` snapshot itself is untouched. -/
def dispose (s : GameState) : GameState := s

/-- The winner computation inside `endMatch`: higher score wins by
name, equal scores give the draw sentinel `平局`. -/
def scoreWinner (player1 player2 : Player) : String :=
  if player1.score > player2.score then player1.name
  else if player2.score > player1.score then player2.name
  else "平局"

/-- `endMatch`: stops the timers, clears `isMatchRunning`, records the
score-determined winner and emits `MATCH_END {winner}`. -/
def endMatch (s : GameState) : GameState × List GameEvent :=
  let w := scoreWinner s.players.1 s.players.2
  ({ s with isMatchRunning := false, winner := some w },
   [GameEvent.matchEnd (some w) false])

/-- `endRound`: emits `ROUND_END`; advances to the next round (round
counter +1, clock refilled, `ROUND_START`) when rounds remain,
otherwise runs `endMatch`. -/
def endRound (s : GameState) : GameState × List GameEvent :=
  if s.currentRound < s.totalRounds then
    ({ s with currentRound := s.currentRound + 1,
              timeRemaining := s.roundTime },
     [GameEvent.roundEnd s.currentRound,
      GameEvent.roundStart (s.currentRound + 1)])
  else
    let r := endMatch s
    (r.1, GameEvent.roundEnd s.currentRound :: r.2)

/-- The body of the 1-second interval callback installed by
`startRoundTimer`: guarded by `!isPaused && timeRemaining > 0`, it
decrements the clock and fires `endRound` when the clock reaches 0. -/
def tick (s : GameState) : GameState × List GameEvent :=
  if !s.isPaused && decide (0 < s.timeRemaining) then
    let s1 := { s with timeRemaining := s.timeRemaining - 1 }
    if s1.timeRemaining = 0 then endRound s1 else (s1, [])
  else (s, [])

/-- `getBlockChance`: the per-attack-type block success probability
(`blockChances[attackType] || 0.5`; every table entry is nonzero, so
`0.5` is returned exactly for unrecognized attack symbols). -/
def getBlockChance (attackType : String) : ℚ :=
  if attackType = "jab" then 6/10
  else if attackType = "cross" then 5/10
  else if attackType = "hook" then 4/10
  else if attackType = "uppercut" then 3/10
  else 5/10

/-- `getAttackDamage`: the per-attack-type base damage
(`damages[attackType] || 10`). -/
def getAttackDamage (attackType : String) : ℕ :=
  if attackType = "jab" then 8
  else if attackType = "cross" then 12
  else if attackType = "hook" then 15
  else if attackType = "uppercut" then 20
  else 10

/-- `isAttackAction`: the attack subset: `jab`, `cross`, `hook`, `uppercut`. -/
def isAttackAction (action : String) : Bool :=
  action = "jab" || action = "cross" || action = "hook" || action = "uppercut"

/-- `Math.floor(baseDamage * (0.8 + Math.random() * 0.4))` with the
random draw `damageRand` made explicit. -/
def hitDamage (attackType : String) (damageRand : ℚ) : ℤ :=
  Int.floor ((getAttackDamage attackType : ℚ) * (8/10 + damageRand * (4/10)))

/-- `checkHit`: block resolution (one random draw against the block
chance when the defender is blocking), then damage application with
health clamped at 0 by `Math.max`, combo/score update, the three hit
events, and the knockout check invoking `endMatch`.
`blockRand` and `damageRand` are the two potential `Math.random()`
draws, in source order. -/
def checkHit (blockRand damageRand : ℚ) (attackerIndex : ℕ)
    (attackType : String) (s : GameState) : GameState × List GameEvent :=
  let attacker := playerAt s attackerIndex
  let defenderIndex := 1 - attackerIndex
  let defender := playerAt s defenderIndex
  if defender.isBlocking && decide (blockRand < getBlockChance attackType) then
    (s, [GameEvent.blockSuccess defender.id attackType])
  else
    let damage := hitDamage attackType damageRand
    let newHealth := max 0 (defender.health - damage)
    let newCombo := attacker.comboCount + 1
    let scoreGain := min (newCombo * 10) 50
    let newScore := attacker.score + scoreGain
    let s1 := setPlayerAt s defenderIndex { defender with health := newHealth }
    let s2 := setPlayerAt s1 attackerIndex
      { attacker with comboCount := newCombo, score := newScore }
    let events := [GameEvent.hitLanded attacker.id defender.id attackType
                     damage scoreGain newCombo,
                   GameEvent.playerDamaged defender.id damage newHealth,
                   GameEvent.scoreUpdate attacker.id newScore]
    if newHealth ≤ 0 then
      let r := endMatch s2
      (r.1, events ++ r.2)
    else (s2, events)

/-- `setPlayerAction`: silently rejects an out-of-range index and a call
arriving within 200 ms of the `lastActionTime` of the player; on acceptance
records action / blocking flag / timestamp and, for an attack action
while the match is running and unpaused, runs `checkHit`. -/
def setPlayerAction (now : ℤ) (blockRand damageRand : ℚ)
    (playerIndex : ℤ) (action : String) (s : GameState) :
    GameState × List GameEvent :=
  if playerIndex < 0 ∨ 2 ≤ playerIndex then (s, [])
  else
    let i := playerIndex.toNat
    let player := playerAt s i
    if now - player.lastActionTime < 200 then (s, [])
    else
      let s1 := setPlayerAt s i
        { player with action := action,
                      isBlocking := action = "block",
                      lastActionTime := now }
      if isAttackAction action && s1.isMatchRunning && !s1.isPaused then
        checkHit blockRand damageRand i action s1
      else (s1, [])

/-- The synchronous part of `updateAIAction` (the AI decision callback):
`actionRand` drives `actions[Math.floor(Math.random() * 5)]`,
`blockDecisionRand` the 40% counter-block draw; the deferred
`setTimeout` idle-revert is a later, separate `setPlayerAction` call. -/
def updateAIAction (now : ℤ) (blockRand damageRand : ℚ)
    (actionRand blockDecisionRand : ℚ) (s : GameState) :
    GameState × List GameEvent :=
  let humanPlayer := s.players.1
  let actions := ["jab", "cross", "hook", "uppercut", "block"]
  let randomAction := actions.getD (Int.floor (actionRand * 5)).toNat "idle"
  if (humanPlayer.action ≠ "idle" ∧ humanPlayer.action ≠ "block") ∧
      blockDecisionRand < 4/10 then
    setPlayerAction now blockRand damageRand 1 "block" s
  else
    setPlayerAction now blockRand damageRand 1 randomAction s

/-- The default placeholder returned by `getPlayer` for an out-of-range
index. -/
def defaultPlayer : Player :=
  { id := "unknown", name := "Unknown", health := 0, score := 0,
    action := "idle", isBlocking := false, comboCount := 0,
    lastActionTime := 0 }

/-- `getPlayer`: a copy of the indexed player for `0 ≤ i < 2`, the
fixed placeholder otherwise. -/
def getPlayer (s : GameState) (playerIndex : ℤ) : Player :=
  if 0 ≤ playerIndex ∧ playerIndex < 2 then playerAt s playerIndex.toNat
  else defaultPlayer

end GameLogic

namespace Gesture

/-- One MediaPipe hand landmark (normalized image-space coordinates). -/
structure Landmark where
  x : ℚ
  y : ℚ
  z : ℚ
deriving Repr, DecidableEq

/-- The `HandLandmarks` indexable structure: the classifier reads the
wrist (0), the finger bases (1, 5, 9, 13, 17) and the finger tips
(4, 8, 12, 16, 20). -/
abbrev HandLandmarks := ℕ → Landmark

/-- `isFingerExtended`: the source computes
`extension = |tip.y - wrist.y| / sqrt((tip.x-base.x)^2 + (tip.y-base.y)^2)`
and tests `extension > 0.7`.  Over the rationals this is stated in the
equivalent squared form `(tip.y - wrist.y)^2 > 0.49 * length²`, which
agrees with the JS real-division semantics in every case, including a
zero segment length (`∞ > 0.7` is true when the numerator is nonzero,
`NaN > 0.7` is false when it is zero). -/
def isFingerExtended (wrist fingerBase fingerTip : Landmark) : Bool :=
  decide ((fingerTip.y - wrist.y) ^ 2 >
    (49/100) * ((fingerTip.x - fingerBase.x) ^ 2 +
      (fingerTip.y - fingerBase.y) ^ 2))

/-- The record returned by `getFingerStates`. -/
structure FingerStates where
  thumbExtended : Bool
  indexExtended : Bool
  middleExtended : Bool
  ringExtended : Bool
  pinkyExtended : Bool
deriving Repr, DecidableEq

/-- `getFingerStates`: the five per-finger extension tests against the
wrist, each using the base and tip landmarks of that finger. -/
def getFingerStates (lm : HandLandmarks) : FingerStates :=
  { thumbExtended := isFingerExtended (lm 0) (lm 1) (lm 4),
    indexExtended := isFingerExtended (lm 0) (lm 5) (lm 8),
    middleExtended := isFingerExtended (lm 0) (lm 9) (lm 12),
    ringExtended := isFingerExtended (lm 0) (lm 13) (lm 16),
    pinkyExtended := isFingerExtended (lm 0) (lm 17) (lm 20) }

/-- `Object.values(fingerStates).filter(Boolean).length`. -/
def extendedCount (fs : FingerStates) : ℕ :=
  [fs.thumbExtended, fs.indexExtended, fs.middleExtended,
   fs.ringExtended, fs.pinkyExtended].count true

/-- The branch structure of `classifyFingerGesture` applied to the
already-computed finger states: open palm at ≥ 3 extended fingers,
fist at 0, the own symbol of the single finger at exactly 1 (the source takes the
first entry of the singleton `extendedFingers` list, in the fixed
thumb→pinky field order), `index_up` at 2 when the index participates,
and `idle` otherwise. -/
def classifyFromStates (fs : FingerStates) : String :=
  let n := extendedCount fs
  if 3 ≤ n then "open_palm"
  else if n = 0 then "fist"
  else if n = 1 then
    if fs.thumbExtended then "thumb_up"
    else if fs.indexExtended then "index_up"
    else if fs.middleExtended then "middle_up"
    else if fs.ringExtended then "ring_up"
    else "pinky_up"
  else if n = 2 ∧ fs.indexExtended then "index_up"
  else "idle"

/-- `classifyFingerGesture` (the variant used by `processFrame`). -/
def classifyFingerGesture (lm : HandLandmarks) : String :=
  classifyFromStates (getFingerStates lm)

/-- The switch of `calculateGestureConfidence` on the already-computed
finger states, followed by the final clamp to `[0.1, 1.0]`. -/
def confidenceFromStates (fs : FingerStates) (gesture : String) : ℚ :=
  let n := extendedCount fs
  let confidence : ℚ :=
    if gesture = "thumb_up" then
      if fs.thumbExtended ∧ n = 1 then 9/10 else 3/10
    else if gesture = "index_up" then
      if fs.indexExtended ∧ n = 1 then 9/10 else 3/10
    else if gesture = "middle_up" then
      if fs.middleExtended ∧ n = 1 then 9/10 else 3/10
    else if gesture = "ring_up" then
      if fs.ringExtended ∧ n = 1 then 9/10 else 3/10
    else if gesture = "pinky_up" then
      if fs.pinkyExtended ∧ n = 1 then 9/10 else 3/10
    else if gesture = "fist" then
      if n = 0 then 95/100 else 2/10
    else if gesture = "open_palm" then
      if 4 ≤ n then 85/100 else 3/10
    else 1/10
  max (1/10) (min 1 confidence)

/-- `calculateGestureConfidence(landmarks, gesture)`. -/
def calculateGestureConfidence (lm : HandLandmarks) (gesture : String) : ℚ :=
  confidenceFromStates (getFingerStates lm) gesture

/-- The `GestureResult` interface. -/
structure GestureResult where
  gesture : String
  confidence : ℚ
  landmarks : HandLandmarks

/-- The mutable fields of `GestureRecognitionService` that
`processFrame` consults: the `isInitialized` flag, whether `this.hands`
is non-null (the two are set together by a successful `initialize`),
and the rate-limiter timestamp. -/
structure RecognizerState where
  isInitialized : Bool
  hasHands : Bool
  lastProcessTime : ℤ

/-- `PROCESS_INTERVAL = 100` (ms). -/
def PROCESS_INTERVAL : ℤ := 100

/-- `processFrame`: returns `[]` when uninitialized or rate-limited
(the latter before updating `lastProcessTime`); otherwise records the
timestamp and runs the `hands.send`/classification pipeline, embedded
here as `sendResult` — `.error` for an internal throw (caught by the
source and degraded to `[]`), `.ok hands` for the landmark sets of the
detected hands (`.ok []` for no `multiHandLandmarks`). -/
def processFrame (now : ℤ) (sendResult : Except Unit (List HandLandmarks))
    (st : RecognizerState) : RecognizerState × List GestureResult :=
  if !st.isInitialized || !st.hasHands then (st, [])
  else if now - st.lastProcessTime < PROCESS_INTERVAL then (st, [])
  else
    let st1 := { st with lastProcessTime := now }
    match sendResult with
    | Except.error _ => (st1, [])
    | Except.ok hands =>
        (st1, hands.map fun lm =>
          { gesture := classifyFingerGesture lm,
            confidence := calculateGestureConfidence lm
              (classifyFingerGesture lm),
            landmarks := lm })

end Gesture

namespace GameLogic

/-- A reference point in time for the concrete example states. -/
def exampleNow : ℤ := 0

/-- The freshly-constructed game state used by the concrete examples. -/
def initialState : GameState := createInitialGameState exampleNow

/-- A stopped state in which player 1 is still blocking (reachable:
block during a match, let the match end by timeout). -/
def startCexState : GameState :=
  { initialState with
    players :=
      ({ initialState.players.1 with action := "block", isBlocking := true },
       initialState.players.2) }

/-- A running state in which player 2 (index 1) is blocking. -/
def blockingState : GameState :=
  { initialState with
    isMatchRunning := true,
    players :=
      (initialState.players.1,
       { initialState.players.2 with action := "block", isBlocking := true }) }

/-- A running state with both players idle (match just started). -/
def runningState : GameState := (startMatch initialState).1

/-- A running state in which player 2 is one hit from a knockout. -/
def koState : GameState :=
  { runningState with
    players :=
      (runningState.players.1,
       { runningState.players.2 with health := 5 }) }

/-- The state invariant of claim C7: both health values stay in
`[0, 100]`, the round counter never exceeds the (positive) total round
count, and the pause flag is only set while the match runs. -/
def Inv (s : GameState) : Prop :=
  0 ≤ s.players.1.health ∧ s.players.1.health ≤ 100 ∧
  0 ≤ s.players.2.health ∧ s.players.2.health ≤ 100 ∧
  s.currentRound ≤ s.totalRounds ∧ 1 ≤ s.totalRounds ∧
  (s.isPaused = true → s.isMatchRunning = true)

end GameLogic

namespace Gesture

/-- A landmark set whose thumb is the only extended finger: the thumb
tip lies far above the wrist along its segment, every other tip moves
sideways. -/
def lmThumb : HandLandmarks := fun n =>
  if n = 4 then ⟨0, 2, 0⟩
  else if n = 8 ∨ n = 12 ∨ n = 16 ∨ n = 20 then ⟨1, 0, 0⟩
  else if n = 0 then ⟨0, 0, 0⟩
  else ⟨0, 1, 0⟩

/-- A landmark set with every finger folded. -/
def lmFist : HandLandmarks := fun n =>
  if n = 4 ∨ n = 8 ∨ n = 12 ∨ n = 16 ∨ n = 20 then ⟨1, 0, 0⟩
  else if n = 0 then ⟨0, 0, 0⟩
  else ⟨0, 1, 0⟩

/-- A landmark set with every finger extended. -/
def lmPalm : HandLandmarks := fun n =>
  if n = 4 ∨ n = 8 ∨ n = 12 ∨ n = 16 ∨ n = 20 then ⟨0, 2, 0⟩
  else if n = 0 then ⟨0, 0, 0⟩
  else ⟨0, 1, 0⟩

/-- A disabled recognizer (initialization failed or still pending). -/
def disabledRecognizer : RecognizerState :=
  { isInitialized := false, hasHands := false, lastProcessTime := 0 }

/-- An initialized recognizer that last accepted a frame at time 0. -/
def readyRecognizer : RecognizerState :=
  { isInitialized := true, hasHands := true, lastProcessTime := 0 }

end Gesture

namespace GameLogic

/-- C10: for an index outside `{0,1}`, `getPlayer` returns the fixed
placeholder (id `unknown`, name `Unknown`, health 0, score 0, action
`idle`, not blocking, combo 0, timestamp 0) without raising; for an
in-range index it returns the indexed player of the match state. -/
theorem getPlayer_default_on_invalid_index (s : GameState) (i : ℤ) :
    (i < 0 ∨ 2 ≤ i →
      getPlayer s i = defaultPlayer ∧
      defaultPlayer.id = "unknown" ∧ defaultPlayer.name = "Unknown" ∧
      defaultPlayer.health = 0 ∧ defaultPlayer.score = 0 ∧
      defaultPlayer.action = "idle" ∧ defaultPlayer.isBlocking = false ∧
      defaultPlayer.comboCount = 0 ∧ defaultPlayer.lastActionTime = 0) ∧
    (0 ≤ i → i < 2 → getPlayer s i = playerAt s i.toNat) := by
  constructor
  · intro h
    have hcond : ¬(0 ≤ i ∧ i < 2) := by omega
    exact ⟨by simp [getPlayer, hcond], rfl, rfl, rfl, rfl, rfl, rfl, rfl, rfl⟩
  · intro h0 h2
    simp only [getPlayer, if_pos (⟨h0, h2⟩ : 0 ≤ i ∧ i < 2)]

/-- Witness for C10 at the initial state with the out-of-range index 5
and the in-range index 1. -/
theorem getPlayer_default_on_invalid_index_witness :
    getPlayer initialState 5 = defaultPlayer ∧
    getPlayer initialState 1 = playerAt initialState 1 := by
  constructor
  · exact ((getPlayer_default_on_invalid_index initialState 5).1
      (by decide)).1
  · exact (getPlayer_default_on_invalid_index initialState 1).2
      (by decide) (by decide)

/-- Turns the negated block-success condition into the Bool guard of
`checkHit` being false. -/
theorem block_guard_false {br : ℚ} {t : String} {p : Player}
    (hb : ¬(p.isBlocking = true ∧ br < getBlockChance t)) :
    (p.isBlocking && decide (br < getBlockChance t)) = false := by
  cases h : p.isBlocking
  · rfl
  · have : ¬(br < getBlockChance t) := fun hr => hb ⟨h, hr⟩
    simp [this]

/-- C3: when the defender is blocking and the block draw falls below
the block chance of the attack type (jab 0.6, cross 0.5, hook 0.4,
uppercut 0.3, default 0.5), `checkHit` emits exactly one
`BLOCK_SUCCESS` event carrying the blocker id and the attack type, and
returns the state completely unchanged. -/
theorem blockSuccess_state_unchanged (blockRand damageRand : ℚ) (a : ℕ)
    (attackType : String) (s : GameState)
    (hblock : (playerAt s (1 - a)).isBlocking = true)
    (hrand : blockRand < getBlockChance attackType) :
    checkHit blockRand damageRand a attackType s =
      (s, [GameEvent.blockSuccess (playerAt s (1 - a)).id attackType]) ∧
    getBlockChance "jab" = 6/10 ∧ getBlockChance "cross" = 5/10 ∧
    getBlockChance "hook" = 4/10 ∧ getBlockChance "uppercut" = 3/10 ∧
    (∀ t, t ≠ "jab" → t ≠ "cross" → t ≠ "hook" → t ≠ "uppercut" →
      getBlockChance t = 5/10) := by
  refine ⟨?_, by simp [getBlockChance], by simp [getBlockChance],
    by simp [getBlockChance], by simp [getBlockChance],
    fun t h1 h2 h3 h4 => by simp [getBlockChance, h1, h2, h3, h4]⟩
  simp [checkHit, hblock, hrand]

/-- Witness for C3: in `blockingState` player 0 jabs, player 1 blocks,
the block draw 0.1 beats the jab block chance 0.6. -/
theorem blockSuccess_state_unchanged_witness :
    (playerAt blockingState 1).isBlocking = true ∧
    (1/10 : ℚ) < getBlockChance "jab" ∧
    checkHit (1/10) 0 0 "jab" blockingState =
      (blockingState,
       [GameEvent.blockSuccess (playerAt blockingState 1).id "jab"]) := by
  refine ⟨by decide, by norm_num [getBlockChance], ?_⟩
  exact (blockSuccess_state_unchanged (1/10) 0 0 "jab" blockingState
    (by decide) (by norm_num [getBlockChance])).1

/-- C5 counterexample: a stopped state in which fighter 0 still holds
action `block` with the blocking flag set (reachable by blocking
during a match that then times out); `startMatch` accepts the call but
leaves the action and the blocking flag untouched, contradicting the
claim that it resets them to `idle` / false. -/
theorem startMatch_keeps_action_counterexample :
    startCexState.isMatchRunning = false ∧
    (startMatch startCexState).1.players.1.action = "block" ∧
    (startMatch startCexState).1.players.1.isBlocking = true ∧
    ¬((startMatch startCexState).1.players.1.action = "idle" ∧
      (startMatch startCexState).1.players.1.isBlocking = false) := by
  refine ⟨rfl, rfl, rfl, ?_⟩
  intro h
  exact absurd h.1 (by decide)

/-- C5 (amended): `startMatch` is a no-op when the match is already
running; otherwise it resets both fighters to health 100, score 0 and
comboCount 0 — leaving each fighter action, blocking flag and
timestamp unchanged — sets currentRound to 1, timeRemaining to the
round duration, clears the winner, sets isRunning true and isPaused
false, and emits MatchStart. -/
theorem startMatch_spec (s : GameState) :
    (s.isMatchRunning = true → startMatch s = (s, [])) ∧
    (s.isMatchRunning = false →
      (startMatch s).1.players.1 =
        { s.players.1 with health := 100, score := 0, comboCount := 0 } ∧
      (startMatch s).1.players.2 =
        { s.players.2 with health := 100, score := 0, comboCount := 0 } ∧
      (startMatch s).1.currentRound = 1 ∧
      (startMatch s).1.timeRemaining = s.roundTime ∧
      (startMatch s).1.totalRounds = s.totalRounds ∧
      (startMatch s).1.roundTime = s.roundTime ∧
      (startMatch s).1.winner = none ∧
      (startMatch s).1.isMatchRunning = true ∧
      (startMatch s).1.isPaused = false ∧
      (startMatch s).2 = [GameEvent.matchStart]) := by
  constructor
  · intro h
    simp [startMatch, h]
  · intro h
    simp [startMatch, resetGameState, h]

/-- Witness for C5 at the freshly-constructed (stopped) state. -/
theorem startMatch_spec_witness :
    initialState.isMatchRunning = false ∧
    (startMatch initialState).1.players.1 =
      { initialState.players.1 with
        health := 100, score := 0, comboCount := 0 } ∧
    (startMatch initialState).2 = [GameEvent.matchStart] := by
  refine ⟨rfl, ?_, ?_⟩
  · exact ((startMatch_spec initialState).2 rfl).1
  · exact ((startMatch_spec initialState).2 rfl).2.2.2.2.2.2.2.2.2

/-- C1: the match winner is always determined by comparing the two
scores.  The first conjunct states this for `endMatch` (reached from
round exhaustion): it clears `isMatchRunning`, records the winner and
emits it in the MATCH_END payload.  The second gives the comparison
rule of `scoreWinner`: strictly higher score wins by name, equal
scores give the sentinel `平局`.  The third shows the sentinel differs
from both fighter names.  The last conjunct covers the knockout path:
when an unblocked hit brings the defender health to 0, `checkHit` ends
the match at once with the same score rule on the post-hit state. -/
theorem matchEnd_winner_by_score (s : GameState) (now : ℤ)
    (blockRand damageRand : ℚ) (a : ℕ) (attackType : String)
    (ha : a < 2)
    (hnb : ¬((playerAt s (1 - a)).isBlocking = true ∧
      blockRand < getBlockChance attackType))
    (hko : (playerAt s (1 - a)).health ≤ hitDamage attackType damageRand) :
    (∀ t : GameState,
      (endMatch t).1.isMatchRunning = false ∧
      (endMatch t).1.winner = some (scoreWinner t.players.1 t.players.2) ∧
      (endMatch t).2 =
        [GameEvent.matchEnd
          (some (scoreWinner t.players.1 t.players.2)) false]) ∧
    (∀ p q : Player,
      (q.score < p.score → scoreWinner p q = p.name) ∧
      (p.score < q.score → scoreWinner p q = q.name) ∧
      (p.score = q.score → scoreWinner p q = "平局")) ∧
    ((createInitialGameState now).players.1.name ≠ "平局" ∧
     (createInitialGameState now).players.2.name ≠ "平局") ∧
    ((checkHit blockRand damageRand a attackType s).1.isMatchRunning = false ∧
     (checkHit blockRand damageRand a attackType s).1.winner =
       some (scoreWinner
         (checkHit blockRand damageRand a attackType s).1.players.1
         (checkHit blockRand damageRand a attackType s).1.players.2)) := by
  refine ⟨fun t => ⟨rfl, rfl, rfl⟩, ?_,
    ⟨by simp [createInitialGameState], by simp [createInitialGameState]⟩, ?_⟩
  · intro p q
    refine ⟨fun h => ?_, fun h => ?_, fun h => ?_⟩
    · rw [scoreWinner, if_pos h]
    · rw [scoreWinner, if_neg (by omega), if_pos h]
    · rw [scoreWinner, if_neg (by omega), if_neg (by omega)]
  · interval_cases a
    · have hnb2 : ¬(s.players.2.isBlocking = true ∧
          blockRand < getBlockChance attackType) := by
        simpa [playerAt] using hnb
      have hko2 : s.players.2.health ≤ hitDamage attackType damageRand := by
        simpa [playerAt] using hko
      simp [checkHit, playerAt, setPlayerAt, endMatch]
      split_ifs
      exact ⟨rfl, rfl⟩
    · have hnb2 : ¬(s.players.1.isBlocking = true ∧
          blockRand < getBlockChance attackType) := by
        simpa [playerAt] using hnb
      have hko2 : s.players.1.health ≤ hitDamage attackType damageRand := by
        simpa [playerAt] using hko
      simp [checkHit, playerAt, setPlayerAt, endMatch]
      split_ifs
      exact ⟨rfl, rfl⟩

end GameLogic

namespace Gesture

/-- C9: `processFrame` returns the empty list (and raises nothing — it
is a total function) in every degraded case: whenever the classifier
is not initialized or the detector is unavailable, whenever the call
arrives less than `PROCESS_INTERVAL` (100 ms) after the last accepted
processing (leaving the state untouched), and whenever the per-frame
pipeline throws internally (only the timestamp is updated). -/
theorem processFrame_degraded_empty (now : ℤ)
    (res : Except Unit (List HandLandmarks)) (st : RecognizerState) :
    (st.isInitialized = false ∨ st.hasHands = false →
      processFrame now res st = (st, [])) ∧
    (st.isInitialized = true → st.hasHands = true →
      now - st.lastProcessTime < PROCESS_INTERVAL →
      processFrame now res st = (st, [])) ∧
    (∀ e : Unit, st.isInitialized = true → st.hasHands = true →
      PROCESS_INTERVAL ≤ now - st.lastProcessTime →
      processFrame now (Except.error e) st =
        ({ st with lastProcessTime := now }, [])) := by
  refine ⟨fun h => ?_, fun h1 h2 h3 => ?_, fun e h1 h2 h3 => ?_⟩
  · rcases h with h | h <;> simp [processFrame, h]
  · simp [processFrame, h1, h2, h3]
  · simp only [processFrame, h1, h2]
    rw [if_neg (by simp), if_neg (by omega)]

/-- Witness for C9: a disabled recognizer, a rate-limited call at 50 ms
after the last accepted frame, and an internal error at 200 ms. -/
theorem processFrame_degraded_empty_witness :
    processFrame 50 (Except.ok []) disabledRecognizer =
      (disabledRecognizer, []) ∧
    processFrame 50 (Except.ok []) readyRecognizer =
      (readyRecognizer, []) ∧
    processFrame 200 (Except.error ()) readyRecognizer =
      ({ readyRecognizer with lastProcessTime := 200 }, []) := by
  refine ⟨?_, ?_, ?_⟩
  · exact (processFrame_degraded_empty 50 (Except.ok [])
      disabledRecognizer).1 (Or.inl rfl)
  · exact (processFrame_degraded_empty 50 (Except.ok [])
      readyRecognizer).2.1 rfl rfl (by decide)
  · exact (processFrame_degraded_empty 200 (Except.error ())
      readyRecognizer).2.2 () rfl rfl (by decide)

end Gesture

namespace GameLogic

/-- Witness for C1: in `koState` player 2 has 5 health and is not
blocking; an uppercut with damage draw 1/2 (damage 20) knocks out and
the match ends with the score-determined winner. -/
theorem matchEnd_winner_by_score_witness :
    (0 : ℕ) < 2 ∧
    ¬((playerAt koState 1).isBlocking = true ∧
      (0 : ℚ) < getBlockChance "uppercut") ∧
    (playerAt koState 1).health ≤ hitDamage "uppercut" (1/2) ∧
    ((checkHit 0 (1/2) 0 "uppercut" koState).1.isMatchRunning = false ∧
     (checkHit 0 (1/2) 0 "uppercut" koState).1.winner =
       some (scoreWinner
         (checkHit 0 (1/2) 0 "uppercut" koState).1.players.1
         (checkHit 0 (1/2) 0 "uppercut" koState).1.players.2)) := by
  have hnb : ¬((playerAt koState 1).isBlocking = true ∧
      (0 : ℚ) < getBlockChance "uppercut") := by
    intro h
    revert h
    simp [koState, runningState, initialState, createInitialGameState,
      startMatch, resetGameState, playerAt, exampleNow]
  have hko : (playerAt koState 1).health ≤ hitDamage "uppercut" (1/2) := by
    have h5 : (playerAt koState 1).health = 5 := by
      simp [koState, runningState, initialState, createInitialGameState,
        startMatch, resetGameState, playerAt, exampleNow]
    have hd : hitDamage "uppercut" (1/2) = 20 := by
      have hb : getAttackDamage "uppercut" = 20 := by
        simp [getAttackDamage]
      have : ((getAttackDamage "uppercut" : ℚ) *
          (8/10 + (1/2 : ℚ) * (4/10))) = 20 := by
        rw [hb]; norm_num
      rw [hitDamage, this]
      norm_num
    rw [h5, hd]
    norm_num
  exact ⟨by norm_num, hnb, hko,
    (matchEnd_winner_by_score koState exampleNow 0 (1/2) 0 "uppercut"
      (by norm_num) hnb hko).2.2.2⟩

/-- C2: the damage model of an accepted, unblocked attack.  The base
damage table is jab 8, cross 12, hook 15, uppercut 20, default 10; for
a raw draw in `[0,1)` the multiplier `0.8 + draw·0.4` lies in
`[0.8, 1.2)`; the applied damage is exactly the floor of base times
multiplier and hence lies between `⌊base·0.8⌋` and `⌊base·1.2⌋`; and
the defender health after an unblocked `checkHit` equals
`max 0 (old health − damage)`. -/
theorem hit_damage_bounds (attackType : String) (damageRand : ℚ)
    (h0 : 0 ≤ damageRand) (h1 : damageRand < 1)
    (blockRand : ℚ) (a : ℕ) (s : GameState) (ha : a < 2)
    (hnb : ¬((playerAt s (1 - a)).isBlocking = true ∧
      blockRand < getBlockChance attackType)) :
    (8/10 ≤ 8/10 + damageRand * (4/10) ∧
     8/10 + damageRand * (4/10) < 12/10) ∧
    hitDamage attackType damageRand =
      Int.floor ((getAttackDamage attackType : ℚ) *
        (8/10 + damageRand * (4/10))) ∧
    (Int.floor ((getAttackDamage attackType : ℚ) * (8/10)) ≤
       hitDamage attackType damageRand ∧
     hitDamage attackType damageRand ≤
       Int.floor ((getAttackDamage attackType : ℚ) * (12/10))) ∧
    (getAttackDamage "jab" = 8 ∧ getAttackDamage "cross" = 12 ∧
     getAttackDamage "hook" = 15 ∧ getAttackDamage "uppercut" = 20 ∧
     (∀ t, t ≠ "jab" → t ≠ "cross" → t ≠ "hook" → t ≠ "uppercut" →
       getAttackDamage t = 10)) ∧
    (playerAt (checkHit blockRand damageRand a attackType s).1
        (1 - a)).health =
      max 0 ((playerAt s (1 - a)).health -
        hitDamage attackType damageRand) := by
  have hbase : (0 : ℚ) ≤ (getAttackDamage attackType : ℚ) :=
    Nat.cast_nonneg _
  refine ⟨⟨by nlinarith, by nlinarith⟩, rfl, ⟨?_, ?_⟩,
    ⟨by simp [getAttackDamage], by simp [getAttackDamage],
     by simp [getAttackDamage], by simp [getAttackDamage],
     fun t k1 k2 k3 k4 => by simp [getAttackDamage, k1, k2, k3, k4]⟩, ?_⟩
  · exact Int.floor_le_floor (by nlinarith)
  · exact Int.floor_le_floor (by nlinarith)
  · interval_cases a
    · have hnb2 : ¬(s.players.2.isBlocking = true ∧
          blockRand < getBlockChance attackType) := by
        simpa [playerAt] using hnb
      simp [checkHit, playerAt, setPlayerAt, endMatch]
      split_ifs <;> rfl
    · have hnb2 : ¬(s.players.1.isBlocking = true ∧
          blockRand < getBlockChance attackType) := by
        simpa [playerAt] using hnb
      simp [checkHit, playerAt, setPlayerAt, endMatch]
      split_ifs <;> rfl

/-- Witness for C2: a hook (base 15) against the non-blocking player 2
of the fresh running state, with damage draw 1/2. -/
theorem hit_damage_bounds_witness :
    (0 : ℚ) ≤ 1/2 ∧ (1/2 : ℚ) < 1 ∧ (0 : ℕ) < 2 ∧
    ¬((playerAt runningState 1).isBlocking = true ∧
      (0 : ℚ) < getBlockChance "hook") ∧
    (Int.floor ((getAttackDamage "hook" : ℚ) * (8/10)) ≤
       hitDamage "hook" (1/2) ∧
     hitDamage "hook" (1/2) ≤
       Int.floor ((getAttackDamage "hook" : ℚ) * (12/10))) ∧
    (playerAt (checkHit 0 (1/2) 0 "hook" runningState).1 1).health =
      max 0 ((playerAt runningState 1).health - hitDamage "hook" (1/2)) := by
  have hnb : ¬((playerAt runningState 1).isBlocking = true ∧
      (0 : ℚ) < getBlockChance "hook") := by
    intro h
    revert h
    simp [runningState, initialState, createInitialGameState,
      startMatch, resetGameState, playerAt, exampleNow]
  have h := hit_damage_bounds "hook" (1/2) (by norm_num) (by norm_num)
    0 0 runningState (by norm_num) hnb
  exact ⟨by norm_num, by norm_num, by norm_num, hnb, h.2.2.1, h.2.2.2.2⟩

end GameLogic

namespace GameLogic

/-- `checkHit` never decreases the combo counter of either player. -/
theorem checkHit_combo_mono (br dr : ℚ) (a : ℕ) (t : String)
    (s : GameState) (j : ℕ) (ha : a < 2) (hj : j < 2) :
    (playerAt s j).comboCount ≤
      (playerAt (checkHit br dr a t s).1 j).comboCount := by
  interval_cases a <;> interval_cases j <;>
  · simp [checkHit, playerAt, setPlayerAt, endMatch]
    split_ifs <;> simp

/-- `setPlayerAction` never decreases the combo counter of either
player. -/
theorem setPlayerAction_combo_mono (now : ℤ) (br dr : ℚ) (i : ℤ)
    (act : String) (s : GameState) (j : ℕ) (hj : j < 2) :
    (playerAt s j).comboCount ≤
      (playerAt (setPlayerAction now br dr i act s).1 j).comboCount := by
  rcases (by omega : i < 0 ∨ 2 ≤ i ∨ i = 0 ∨ i = 1) with h | h | rfl | rfl
  · simp [setPlayerAction, h]
  · simp [setPlayerAction, h]
  all_goals
    simp only [setPlayerAction]
    split_ifs
    · exact le_refl _
    · exact le_refl _
    · refine le_trans (le_of_eq ?_) (checkHit_combo_mono _ _ _ _ _ j
        (by norm_num) hj)
      interval_cases j <;> simp [playerAt, setPlayerAt]
    · refine le_of_eq ?_
      interval_cases j <;> simp [playerAt, setPlayerAt]

/-- `tick` (and through it `endRound` / `endMatch`) never touches the
players tuple. -/
theorem tick_players_eq (s : GameState) : (tick s).1.players = s.players := by
  simp only [tick, endRound, endMatch]
  split_ifs <;> rfl

/-- C4: on every landed (unblocked) hit the attacker combo grows by
exactly 1 and the score grows by `min(newCombo·10, 50)`; `checkHit`
and `setPlayerAction` never decrease a combo counter (so neither a
block nor any defender action resets it), the round clock and the
pause toggle leave both counters untouched, and only an accepted
`startMatch` or a `resetMatch` resets them to 0. -/
theorem combo_score_update (br dr : ℚ) (a : ℕ) (t : String)
    (s : GameState) (ha : a < 2)
    (hnb : ¬((playerAt s (1 - a)).isBlocking = true ∧
      br < getBlockChance t)) :
    ((playerAt (checkHit br dr a t s).1 a).comboCount =
       (playerAt s a).comboCount + 1 ∧
     (playerAt (checkHit br dr a t s).1 a).score =
       (playerAt s a).score +
         min (((playerAt s a).comboCount + 1) * 10) 50) ∧
    (∀ (br2 dr2 : ℚ) (a2 : ℕ) (t2 : String) (s2 : GameState) (j : ℕ),
      a2 < 2 → j < 2 →
      (playerAt s2 j).comboCount ≤
        (playerAt (checkHit br2 dr2 a2 t2 s2).1 j).comboCount) ∧
    (∀ (now : ℤ) (br2 dr2 : ℚ) (i : ℤ) (act : String) (s2 : GameState)
        (j : ℕ), j < 2 →
      (playerAt s2 j).comboCount ≤
        (playerAt (setPlayerAction now br2 dr2 i act s2).1 j).comboCount) ∧
    (∀ (s2 : GameState) (j : ℕ),
      (playerAt (tick s2).1 j).comboCount = (playerAt s2 j).comboCount) ∧
    (∀ (s2 : GameState) (j : ℕ),
      (playerAt (pauseMatch s2).1 j).comboCount =
        (playerAt s2 j).comboCount) ∧
    (∀ (s2 : GameState) (j : ℕ), j < 2 → s2.isMatchRunning = false →
      (playerAt (startMatch s2).1 j).comboCount = 0) ∧
    (∀ (now : ℤ) (s2 : GameState) (j : ℕ), j < 2 →
      (playerAt (resetMatch now s2).1 j).comboCount = 0) := by
  refine ⟨?_, fun br2 dr2 a2 t2 s2 j ha2 hj =>
      checkHit_combo_mono br2 dr2 a2 t2 s2 j ha2 hj,
    fun now br2 dr2 i act s2 j hj =>
      setPlayerAction_combo_mono now br2 dr2 i act s2 j hj,
    fun s2 j => by rw [playerAt, playerAt, tick_players_eq],
    fun s2 j => by unfold pauseMatch; split_ifs <;> rfl,
    fun s2 j hj hr => by
      interval_cases j <;> simp [startMatch, resetGameState, hr, playerAt],
    fun now s2 j hj => by
      interval_cases j <;>
        simp [resetMatch, createInitialGameState, playerAt]⟩
  interval_cases a
  · have hnb2 : ¬(s.players.2.isBlocking = true ∧
        br < getBlockChance t) := by
      simpa [playerAt] using hnb
    simp [checkHit, playerAt, setPlayerAt, endMatch]
    split_ifs <;> exact ⟨rfl, rfl⟩
  · have hnb2 : ¬(s.players.1.isBlocking = true ∧
        br < getBlockChance t) := by
      simpa [playerAt] using hnb
    simp [checkHit, playerAt, setPlayerAt, endMatch]
    split_ifs <;> exact ⟨rfl, rfl⟩

/-- Witness for C4: player 0 lands a cross on the non-blocking player 2
of the fresh running state (combo 0 becomes 1, score gain 10). -/
theorem combo_score_update_witness :
    (0 : ℕ) < 2 ∧
    ¬((playerAt runningState 1).isBlocking = true ∧
      (0 : ℚ) < getBlockChance "cross") ∧
    ((playerAt (checkHit 0 (1/2) 0 "cross" runningState).1 0).comboCount =
       (playerAt runningState 0).comboCount + 1 ∧
     (playerAt (checkHit 0 (1/2) 0 "cross" runningState).1 0).score =
       (playerAt runningState 0).score +
         min (((playerAt runningState 0).comboCount + 1) * 10) 50) := by
  have hnb : ¬((playerAt runningState 1).isBlocking = true ∧
      (0 : ℚ) < getBlockChance "cross") := by
    intro h
    revert h
    simp [runningState, initialState, createInitialGameState,
      startMatch, resetGameState, playerAt, exampleNow]
  exact ⟨by norm_num, hnb,
    (combo_score_update 0 (1/2) 0 "cross" runningState (by norm_num) hnb).1⟩

end GameLogic

namespace GameLogic

/-- `checkHit` changes neither the action string nor the action
timestamp of either player. -/
theorem checkHit_keeps_action_time (br dr : ℚ) (a j : ℕ) (t : String)
    (s : GameState) (ha : a < 2) (hj : j < 2) :
    (playerAt (checkHit br dr a t s).1 j).action = (playerAt s j).action ∧
    (playerAt (checkHit br dr a t s).1 j).lastActionTime =
      (playerAt s j).lastActionTime := by
  interval_cases a <;> interval_cases j <;>
  · simp [checkHit, playerAt, setPlayerAt, endMatch]
    split_ifs <;> simp

/-- Reading back the player just written by `setPlayerAt`. -/
theorem playerAt_setPlayerAt_self (s : GameState) (k : ℕ) (p : Player)
    (hk : k < 2) : playerAt (setPlayerAt s k p) k = p := by
  interval_cases k <;> simp [playerAt, setPlayerAt]

/-- An accepted `setPlayerAction` call records the requested action and
the call timestamp on the addressed player. -/
theorem setPlayerAction_accepted_fields (now : ℤ) (br dr : ℚ) (i : ℤ)
    (act : String) (s : GameState) (h0 : 0 ≤ i) (h2 : i < 2)
    (hacc : 200 ≤ now - (playerAt s i.toNat).lastActionTime) :
    (playerAt (setPlayerAction now br dr i act s).1 i.toNat).action = act ∧
    (playerAt (setPlayerAction now br dr i act s).1 i.toNat).lastActionTime
      = now := by
  have hrange : ¬(i < 0 ∨ 2 ≤ i) := by omega
  have hdeb : ¬(now - (playerAt s i.toNat).lastActionTime < 200) := by omega
  have hk : i.toNat < 2 := by omega
  simp only [setPlayerAction, if_neg hrange, if_neg hdeb]
  split_ifs with hc
  · have h1 := checkHit_keeps_action_time br dr i.toNat i.toNat act
      (setPlayerAt s i.toNat
        { playerAt s i.toNat with
          action := act, isBlocking := decide (act = "block"),
          lastActionTime := now }) hk hk
    rw [h1.1, h1.2, playerAt_setPlayerAt_self _ _ _ hk]
    exact ⟨rfl, rfl⟩
  · dsimp only
    rw [playerAt_setPlayerAt_self _ _ _ hk]
    exact ⟨rfl, rfl⟩

/-- A call within 200 ms of the addressed player timestamp is a no-op. -/
theorem setPlayerAction_debounced (now : ℤ) (br dr : ℚ) (i : ℤ)
    (act : String) (s : GameState) (h0 : 0 ≤ i) (h2 : i < 2)
    (hd : now - (playerAt s i.toNat).lastActionTime < 200) :
    setPlayerAction now br dr i act s = (s, []) := by
  have hr : ¬(i < 0 ∨ 2 ≤ i) := by omega
  simp only [setPlayerAction, if_neg hr, if_pos hd]

/-- C6: `setPlayerAction` is a silent, total no-op for an out-of-range
fighter index and for a call arriving within 200 ms of the fighter
`lastActionTime`; consequently a second call for the same fighter less
than 200 ms after an accepted first call leaves the entire state
unchanged and the action equal to the first call symbol. -/
theorem setPlayerAction_silent_rejection (now : ℤ) (br dr : ℚ) (i : ℤ)
    (act : String) (s : GameState) :
    ((i < 0 ∨ 2 ≤ i) → setPlayerAction now br dr i act s = (s, [])) ∧
    (0 ≤ i → i < 2 → now - (playerAt s i.toNat).lastActionTime < 200 →
      setPlayerAction now br dr i act s = (s, [])) ∧
    (∀ (t0 t1 : ℤ) (br1 dr1 : ℚ) (act2 : String), 0 ≤ i → i < 2 →
      200 ≤ t0 - (playerAt s i.toNat).lastActionTime → t1 - t0 < 200 →
      (playerAt (setPlayerAction t0 br dr i act s).1 i.toNat).action
        = act ∧
      setPlayerAction t1 br1 dr1 i act2
          (setPlayerAction t0 br dr i act s).1 =
        ((setPlayerAction t0 br dr i act s).1, []) ∧
      (playerAt (setPlayerAction t1 br1 dr1 i act2
          (setPlayerAction t0 br dr i act s).1).1 i.toNat).action
        = act) := by
  refine ⟨fun h => by simp only [setPlayerAction, if_pos h],
    fun h0 h2 hd => setPlayerAction_debounced now br dr i act s h0 h2 hd,
    fun t0 t1 br1 dr1 act2 h0 h2 hacc hdeb => ?_⟩
  have hfields := setPlayerAction_accepted_fields t0 br dr i act s
    h0 h2 hacc
  have hd2 : t1 - (playerAt (setPlayerAction t0 br dr i act s).1
      i.toNat).lastActionTime < 200 := by
    rw [hfields.2]; exact hdeb
  have hrej := setPlayerAction_debounced t1 br1 dr1 i act2
    (setPlayerAction t0 br dr i act s).1 h0 h2 hd2
  refine ⟨hfields.1, hrej, ?_⟩
  rw [hrej]
  exact hfields.1

/-- Witness for C6: index 5 is rejected, a call 100 ms after
construction is debounced, and a jab at 300 ms followed by a cross at
400 ms leaves the action at jab. -/
theorem setPlayerAction_silent_rejection_witness :
    setPlayerAction 300 0 0 5 "jab" initialState = (initialState, []) ∧
    setPlayerAction 100 0 0 0 "jab" initialState = (initialState, []) ∧
    ((playerAt (setPlayerAction 300 0 0 0 "jab" initialState).1
        (Int.toNat 0)).action = "jab" ∧
     setPlayerAction 400 0 0 0 "cross"
         (setPlayerAction 300 0 0 0 "jab" initialState).1 =
       ((setPlayerAction 300 0 0 0 "jab" initialState).1, []) ∧
     (playerAt (setPlayerAction 400 0 0 0 "cross"
         (setPlayerAction 300 0 0 0 "jab" initialState).1).1
        (Int.toNat 0)).action = "jab") := by
  have hlast : (playerAt initialState (Int.toNat 0)).lastActionTime = 0 := by
    simp [initialState, createInitialGameState, playerAt, exampleNow]
  refine ⟨(setPlayerAction_silent_rejection 300 0 0 5 "jab"
      initialState).1 (by omega),
    (setPlayerAction_silent_rejection 100 0 0 0 "jab" initialState).2.1
      (by omega) (by omega) (by rw [hlast]; omega),
    (setPlayerAction_silent_rejection 300 0 0 0 "jab" initialState).2.2
      300 400 0 0 "cross" (by omega) (by omega)
      (by rw [hlast]; omega) (by omega)⟩

end GameLogic

namespace GameLogic

/-- For a nonnegative damage draw the computed damage is nonnegative. -/
theorem hitDamage_nonneg (t : String) {dr : ℚ} (h : 0 ≤ dr) :
    0 ≤ hitDamage t dr := by
  have hb : (0 : ℚ) ≤ (getAttackDamage t : ℚ) := Nat.cast_nonneg _
  have hx : (0 : ℚ) ≤ (getAttackDamage t : ℚ) * (8/10 + dr * (4/10)) := by
    nlinarith
  exact Int.le_floor.mpr (by exact_mod_cast hx)

/-- `endMatch` preserves the C7 invariant of an unpaused state. -/
theorem endMatch_inv (s : GameState) (hp : s.isPaused = false)
    (hI : Inv s) : Inv (endMatch s).1 := by
  obtain ⟨h1, h2, h3, h4, h5, h6, h7⟩ := hI
  exact ⟨h1, h2, h3, h4, h5, h6, by simp [endMatch, hp]⟩

/-- `checkHit` preserves the C7 invariant when called, as in the
source, with a nonnegative damage draw and an unpaused state. -/
theorem checkHit_inv (br dr : ℚ) (a : ℕ) (t : String) (s : GameState)
    (ha : a < 2) (hdr : 0 ≤ dr) (hp : s.isPaused = false) (hI : Inv s) :
    Inv (checkHit br dr a t s).1 := by
  have hd := hitDamage_nonneg t hdr
  obtain ⟨h1, h2, h3, h4, h5, h6, h7⟩ := hI
  interval_cases a <;>
  · simp [checkHit, playerAt, setPlayerAt]
    split_ifs
    · exact ⟨h1, h2, h3, h4, h5, h6, h7⟩
    · refine endMatch_inv _ (by dsimp only; exact hp) ?_
      exact ⟨by dsimp only; omega, by dsimp only; omega,
        by dsimp only; omega, by dsimp only; omega, by dsimp only; omega,
        by dsimp only; omega, by dsimp only; simp [hp]⟩
    · exact ⟨by dsimp only; omega, by dsimp only; omega,
        by dsimp only; omega, by dsimp only; omega, by dsimp only; omega,
        by dsimp only; omega, by dsimp only; simp [hp]⟩

/-- Overwriting a player with a record of equal health preserves the
C7 invariant. -/
theorem setPlayerAt_keep_health_inv (s : GameState) (k : ℕ) (p : Player)
    (hk : k < 2) (hh : p.health = (playerAt s k).health) (hI : Inv s) :
    Inv (setPlayerAt s k p) := by
  obtain ⟨h1, h2, h3, h4, h5, h6, h7⟩ := hI
  interval_cases k <;>
  · simp only [playerAt] at hh
    refine ⟨?_, ?_, ?_, ?_, ?_, ?_, ?_⟩ <;> simp_all [setPlayerAt]

/-- `setPlayerAction` preserves the C7 invariant for every index and
action and every nonnegative damage draw. -/
theorem setPlayerAction_inv (now : ℤ) (br dr : ℚ) (i : ℤ) (act : String)
    (s : GameState) (hdr : 0 ≤ dr) (hI : Inv s) :
    Inv (setPlayerAction now br dr i act s).1 := by
  by_cases hr : i < 0 ∨ 2 ≤ i
  · simp only [setPlayerAction, if_pos hr]
    exact hI
  · by_cases hd : now - (playerAt s i.toNat).lastActionTime < 200
    · simp only [setPlayerAction, if_neg hr, if_pos hd]
      exact hI
    · have hk : i.toNat < 2 := by omega
      simp only [setPlayerAction, if_neg hr, if_neg hd]
      have hIX : Inv (setPlayerAt s i.toNat
          { playerAt s i.toNat with
            action := act, isBlocking := decide (act = "block"),
            lastActionTime := now }) :=
        setPlayerAt_keep_health_inv s i.toNat _ hk rfl hI
      split_ifs with hc
      · simp only [Bool.and_eq_true, Bool.not_eq_true'] at hc
        exact checkHit_inv br dr i.toNat act _ hk hdr hc.2 hIX
      · exact hIX

/-- The round-clock tick preserves the C7 invariant. -/
theorem tick_inv (s : GameState) (hI : Inv s) : Inv (tick s).1 := by
  obtain ⟨h1, h2, h3, h4, h5, h6, h7⟩ := hI
  simp only [tick]
  split_ifs with hg ht
  · simp only [Bool.and_eq_true, Bool.not_eq_true',
      decide_eq_true_eq] at hg
    simp only [endRound, endMatch]
    split_ifs with hlt
    · exact ⟨h1, h2, h3, h4, by dsimp only; omega, h6, h7⟩
    · exact ⟨h1, h2, h3, h4, h5, h6, by simp [hg.1]⟩
  · exact ⟨h1, h2, h3, h4, h5, h6, h7⟩
  · exact ⟨h1, h2, h3, h4, h5, h6, h7⟩

/-- The AI decision callback preserves the C7 invariant (it acts only
through `setPlayerAction` on index 1). -/
theorem updateAIAction_inv (now : ℤ) (br dr ar bdr : ℚ) (s : GameState)
    (hdr : 0 ≤ dr) (hI : Inv s) :
    Inv (updateAIAction now br dr ar bdr s).1 := by
  simp only [updateAIAction]
  split_ifs <;> exact setPlayerAction_inv _ _ _ _ _ _ hdr hI

/-- C7: the state invariant — both health values in `[0,100]`,
`currentRound` never above the (positive) `totalRounds`, and
`isPaused` only while `isMatchRunning` — holds for the freshly
constructed state and is preserved by `startMatch`, `pauseMatch`,
`resetMatch`, `dispose`, `setPlayerAction` (human input), the round
clock tick and the AI decision callback, the two latter exactly as
driven by the timers with `Math.random` draws in `[0,1)`. -/
theorem invariant_preserved :
    (∀ now : ℤ, Inv (createInitialGameState now)) ∧
    (∀ s : GameState, Inv s → Inv (startMatch s).1) ∧
    (∀ s : GameState, Inv s → Inv (pauseMatch s).1) ∧
    (∀ (now : ℤ) (s : GameState), Inv s → Inv (resetMatch now s).1) ∧
    (∀ s : GameState, Inv s → Inv (dispose s)) ∧
    (∀ (now : ℤ) (br dr : ℚ) (i : ℤ) (act : String) (s : GameState),
      0 ≤ dr → Inv s → Inv (setPlayerAction now br dr i act s).1) ∧
    (∀ s : GameState, Inv s → Inv (tick s).1) ∧
    (∀ (now : ℤ) (br dr ar bdr : ℚ) (s : GameState),
      0 ≤ dr → Inv s → Inv (updateAIAction now br dr ar bdr s).1) := by
  refine ⟨fun now => by
      refine ⟨?_, ?_, ?_, ?_, ?_, ?_, ?_⟩ <;> simp [createInitialGameState],
    fun s hI => ?_, fun s hI => ?_,
    fun now s _ => by
      refine ⟨?_, ?_, ?_, ?_, ?_, ?_, ?_⟩ <;>
        simp [resetMatch, createInitialGameState],
    fun s hI => hI,
    fun now br dr i act s hdr hI =>
      setPlayerAction_inv now br dr i act s hdr hI,
    fun s hI => tick_inv s hI,
    fun now br dr ar bdr s hdr hI =>
      updateAIAction_inv now br dr ar bdr s hdr hI⟩
  · obtain ⟨h1, h2, h3, h4, h5, h6, h7⟩ := hI
    simp only [startMatch, resetGameState]
    split_ifs
    · exact ⟨h1, h2, h3, h4, h5, h6, h7⟩
    · exact ⟨by norm_num, by norm_num, by norm_num, by norm_num,
        h6, h6, by simp⟩
  · obtain ⟨h1, h2, h3, h4, h5, h6, h7⟩ := hI
    simp only [pauseMatch]
    split_ifs with hrun
    · exact ⟨h1, h2, h3, h4, h5, h6, fun _ => hrun⟩
    · exact ⟨h1, h2, h3, h4, h5, h6, h7⟩

/-- Witness for C7: the invariant holds at construction, survives the
match start and survives a jab with damage draw 1/2. -/
theorem invariant_preserved_witness :
    Inv initialState ∧ Inv runningState ∧ (0 : ℚ) ≤ 1/2 ∧
    Inv (setPlayerAction 300 0 (1/2) 0 "jab" runningState).1 := by
  have h0 : Inv initialState := invariant_preserved.1 exampleNow
  have h1 : Inv runningState := invariant_preserved.2.1 initialState h0
  exact ⟨h0, h1, by norm_num,
    invariant_preserved.2.2.2.2.2.1 300 0 (1/2) 0 "jab" runningState
      (by norm_num) h1⟩

end GameLogic

namespace Gesture

/-- Case analysis of classification and confidence over the 32 finger
patterns. -/
theorem classify_confidence_cases (fs : FingerStates) :
    (extendedCount fs = 0 →
      classifyFromStates fs = "fist" ∧
      confidenceFromStates fs (classifyFromStates fs) = 95/100) ∧
    (3 ≤ extendedCount fs → classifyFromStates fs = "open_palm") ∧
    (fs.thumbExtended = true → extendedCount fs = 1 →
      classifyFromStates fs = "thumb_up" ∧
      confidenceFromStates fs (classifyFromStates fs) = 9/10) ∧
    (fs.indexExtended = true → extendedCount fs = 1 →
      classifyFromStates fs = "index_up" ∧
      confidenceFromStates fs (classifyFromStates fs) = 9/10) ∧
    (fs.middleExtended = true → extendedCount fs = 1 →
      classifyFromStates fs = "middle_up" ∧
      confidenceFromStates fs (classifyFromStates fs) = 9/10) ∧
    (fs.ringExtended = true → extendedCount fs = 1 →
      classifyFromStates fs = "ring_up" ∧
      confidenceFromStates fs (classifyFromStates fs) = 9/10) ∧
    (fs.pinkyExtended = true → extendedCount fs = 1 →
      classifyFromStates fs = "pinky_up" ∧
      confidenceFromStates fs (classifyFromStates fs) = 9/10) := by
  obtain ⟨t, i, m, r, p⟩ := fs
  cases t <;> cases i <;> cases m <;> cases r <;> cases p <;>
  · simp [classifyFromStates, confidenceFromStates, extendedCount,
      max_def, min_def]
    all_goals norm_num

/-- C8: a landmark set in which exactly one finger passes the
extension test classifies to that finger symbol with confidence
exactly 0.9; zero extended fingers classify to `fist` with confidence
0.95; at least 3 extended fingers classify to `open_palm`. -/
theorem single_finger_classification (lm : HandLandmarks) :
    (extendedCount (getFingerStates lm) = 0 →
      classifyFingerGesture lm = "fist" ∧
      calculateGestureConfidence lm (classifyFingerGesture lm) = 95/100) ∧
    (3 ≤ extendedCount (getFingerStates lm) →
      classifyFingerGesture lm = "open_palm") ∧
    ((getFingerStates lm).thumbExtended = true →
      extendedCount (getFingerStates lm) = 1 →
      classifyFingerGesture lm = "thumb_up" ∧
      calculateGestureConfidence lm (classifyFingerGesture lm) = 9/10) ∧
    ((getFingerStates lm).indexExtended = true →
      extendedCount (getFingerStates lm) = 1 →
      classifyFingerGesture lm = "index_up" ∧
      calculateGestureConfidence lm (classifyFingerGesture lm) = 9/10) ∧
    ((getFingerStates lm).middleExtended = true →
      extendedCount (getFingerStates lm) = 1 →
      classifyFingerGesture lm = "middle_up" ∧
      calculateGestureConfidence lm (classifyFingerGesture lm) = 9/10) ∧
    ((getFingerStates lm).ringExtended = true →
      extendedCount (getFingerStates lm) = 1 →
      classifyFingerGesture lm = "ring_up" ∧
      calculateGestureConfidence lm (classifyFingerGesture lm) = 9/10) ∧
    ((getFingerStates lm).pinkyExtended = true →
      extendedCount (getFingerStates lm) = 1 →
      classifyFingerGesture lm = "pinky_up" ∧
      calculateGestureConfidence lm (classifyFingerGesture lm) = 9/10) :=
  classify_confidence_cases (getFingerStates lm)

/-- Witness for C8: a thumb-only landmark set gives `thumb_up` at 0.9,
an all-folded set gives `fist` at 0.95, an all-extended set gives
`open_palm`. -/
theorem single_finger_classification_witness :
    ((getFingerStates lmThumb).thumbExtended = true ∧
     extendedCount (getFingerStates lmThumb) = 1 ∧
     classifyFingerGesture lmThumb = "thumb_up" ∧
     calculateGestureConfidence lmThumb (classifyFingerGesture lmThumb)
       = 9/10) ∧
    (extendedCount (getFingerStates lmFist) = 0 ∧
     classifyFingerGesture lmFist = "fist" ∧
     calculateGestureConfidence lmFist (classifyFingerGesture lmFist)
       = 95/100) ∧
    (3 ≤ extendedCount (getFingerStates lmPalm) ∧
     classifyFingerGesture lmPalm = "open_palm") := by
  have hthumb : getFingerStates lmThumb =
      ⟨true, false, false, false, false⟩ := by
    simp only [getFingerStates, lmThumb, isFingerExtended]
    norm_num
  have hfist : getFingerStates lmFist =
      ⟨false, false, false, false, false⟩ := by
    simp only [getFingerStates, lmFist, isFingerExtended]
    norm_num
  have hpalm : getFingerStates lmPalm =
      ⟨true, true, true, true, true⟩ := by
    simp only [getFingerStates, lmPalm, isFingerExtended]
    norm_num
  have ht : (getFingerStates lmThumb).thumbExtended = true := by
    rw [hthumb]
  have htc : extendedCount (getFingerStates lmThumb) = 1 := by
    rw [hthumb]; rfl
  have hfc : extendedCount (getFingerStates lmFist) = 0 := by
    rw [hfist]; rfl
  have hpc : 3 ≤ extendedCount (getFingerStates lmPalm) := by
    rw [hpalm]; norm_num [extendedCount]
  refine ⟨⟨ht, htc, (single_finger_classification lmThumb).2.2.1 ht htc⟩,
    ⟨hfc, (single_finger_classification lmFist).1 hfc⟩,
    ⟨hpc, (single_finger_classification lmPalm).2.1 hpc⟩⟩

end Gesture
